import Mathlib

/-!
Verification of the Reply Metadata model (`RepliedMessageInfo.cpp`).

The file shallowly embeds the component: the Header Parser, the Local Reply
Builder, the Change Oracle `need_reply_changed_warning`, `clone`, the equality
`operator==` and the client projection `get_message_reply_to_message_object`.
External collaborators (message ids, chat ids, origins, the content type
system, configuration options) are modelled from the specification and threaded
through an explicit environment.
-/

namespace TdReply

/-- Modelled from the spec: message identifiers (`MessageId` is outside the
embedded sources). An identifier is possibly empty, a server identifier, or a
scheduled-server identifier that lives in a distinct id space and carries its
send date (spec §3 and glossary). -/
inductive MessageId where
  | empty : MessageId
  | server : Int → MessageId
  | scheduledServer : Int → Int → MessageId
deriving DecidableEq, Repr

/-- Modelled from the spec: a non-scheduled identifier is valid iff it is a
positive server identifier. -/
def MessageId.isValid : MessageId → Bool
  | .server i => 0 < i
  | _ => false

/-- Modelled from the spec: a scheduled identifier is valid iff its scheduled
slot is positive. -/
def MessageId.isValidScheduled : MessageId → Bool
  | .scheduledServer s _ => 0 < s
  | _ => false

/-- Modelled from the spec: scheduled messages are addressed by a distinct id
space. -/
def MessageId.isScheduled : MessageId → Bool
  | .scheduledServer _ _ => true
  | _ => false

/-- Modelled from the spec: a scheduled-server id is one of the scheduled id
space; in this model it coincides with scheduled validity. -/
def MessageId.isScheduledServer : MessageId → Bool := MessageId.isValidScheduled

/-- Modelled from the spec: the scheduled slot underlying a scheduled-server
identifier (a schedule-date edit keeps the slot). -/
def MessageId.getScheduledServerMessageId : MessageId → Int
  | .scheduledServer s _ => s
  | _ => 0

/-- Modelled from the spec: the numeric value used by id-ordering comparisons;
scheduled ids sit above every server id. -/
def MessageId.rawValue : MessageId → Int
  | .empty => 0
  | .server i => i
  | .scheduledServer s d => 2 ^ 50 + d * 2 ^ 20 + s

/-- Modelled from the spec: conversion of a raw scheduled id together with the
host send date; an invalid raw id yields the empty identifier. -/
def MessageId.mkScheduled (raw : Int) (date : Int) : MessageId :=
  if 0 < raw then .scheduledServer raw date else .empty

/-- Modelled from the spec: chat identifiers together with their chat type
(`DialogId` is outside the embedded sources). `empty` means no cross-chat
target; `invalid` models a malformed network peer reference. -/
inductive DialogId where
  | empty : DialogId
  | user : Nat → DialogId
  | chat : Nat → DialogId
  | channel : Nat → DialogId
  | secretChat : Nat → DialogId
  | invalid : DialogId
deriving DecidableEq, Repr

/-- Modelled from the spec: a chat identifier is valid iff it is a well-formed
reference of one of the known chat types. -/
def DialogId.isValid : DialogId → Bool
  | .empty => false
  | .invalid => false
  | _ => true

/-- has_qts_messages: private chats and basic groups have qts updates exactly
when more than one session is active; channels and secret chats never do. -/
def has_qts_messages (sessionCount : Int) (dialog_id : DialogId) : Bool :=
  match dialog_id with
  | .user _ => sessionCount > 1
  | .chat _ => sessionCount > 1
  | _ => false

/-- Modelled from the spec: the polymorphic message origin with variants none,
user, hidden-user-signature, channel, hidden-channel-signature and import
(spec §3 and §9). -/
inductive MessageOrigin where
  | none : MessageOrigin
  | user : Nat → MessageOrigin
  | hiddenUserSignature : String → MessageOrigin
  | channel : Nat → MessageId → MessageOrigin
  | hiddenChannelSignature : Nat → String → MessageOrigin
  | msgImport : String → MessageOrigin
deriving DecidableEq, Repr

/-- Modelled from the spec: an origin is empty iff it is the none variant. -/
def MessageOrigin.isEmpty : MessageOrigin → Bool
  | .none => true
  | _ => false

/-- Modelled from the spec: the signature-presence query as an exhaustive
match on the origin variants. -/
def MessageOrigin.hasSenderSignature : MessageOrigin → Bool
  | .hiddenUserSignature _ => true
  | .hiddenChannelSignature _ _ => true
  | _ => false

/-- A (chat, message) pair. -/
structure MessageFullId where
  dialog_id : DialogId
  message_id : MessageId
deriving DecidableEq, Repr

/-- Modelled from the spec: the concrete message identity carried by an origin,
when it has one (only a channel origin carries one). -/
def MessageOrigin.getMessageFullId : MessageOrigin → MessageFullId
  | .channel c m => ⟨.channel c, m⟩
  | _ => ⟨.empty, .empty⟩

/-- Modelled from the spec: formatted text is raw text plus an ordered list of
entities; entity kinds are abstract numbers here. -/
structure FormattedText where
  text : String := ""
  entities : List Nat := []
deriving DecidableEq, Repr

/-- Byte size of a text, as the C++ std::string size. -/
def textSize (s : String) : Nat := s.utf8ByteSize

/-- Modelled from the spec: an abstract content snapshot with an optional
embedded text slot (the generic content type system is external, spec §1). -/
structure Content where
  text : Option FormattedText := Option.none
  payload : Nat := 0
deriving DecidableEq, Repr

/-- Modelled from the spec: the client projection of a content snapshot
(spec §4.5): an unsupported placeholder, a text message with its optional web
page and link-preview options, or any other content kind. -/
inductive ClientContent where
  | unsupported : ClientContent
  | text : Option Nat → Option Nat → ClientContent
  | other : Nat → ClientContent
deriving DecidableEq, Repr

/-- Modelled from the spec: the reply_from part of a network header carries a
date and an abstract origin descriptor (spec §6). -/
structure ReplyFrom where
  date_ : Int := 0
  payload : Nat := 0
deriving DecidableEq, Repr

/-- Modelled from the spec: the optional alternate-media payload of a header;
the empty sentinel corresponds to messageMediaEmpty. -/
inductive Media where
  | mediaEmpty : Media
  | media : Nat → Media
deriving DecidableEq, Repr

/-- The network reply header, with the fields the spec lists in §6. -/
structure MessageReplyHeader where
  reply_to_scheduled_ : Bool := false
  reply_to_msg_id_ : Int := 0
  reply_to_peer_id_ : Option DialogId := Option.none
  reply_from_ : Option ReplyFrom := Option.none
  reply_media_ : Option Media := Option.none
  quote_ : Bool := false
  quote_text_ : String := ""
  quote_entities_ : List Nat := []
  quote_offset_ : Int := 0
deriving DecidableEq, Repr

/-- The local reply intent (spec §6). -/
structure MessageInputReplyTo where
  message_id_ : MessageId := .empty
  dialog_id_ : DialogId := .empty
  quote_ : FormattedText := {}
  quote_position_ : Int := 0
deriving DecidableEq, Repr

/-- Modelled from the spec: the forwarded-message lookup result
`(chat, message) -> origin_date, origin, content` (spec §6). -/
structure ForwardedMessageInfo where
  origin_date_ : Int := 0
  origin_ : MessageOrigin := .none
  content_ : Option Content := Option.none
deriving DecidableEq, Repr

/-- The Reply Metadata entity (spec §3). -/
structure RepliedMessageInfo where
  message_id_ : MessageId := .empty
  dialog_id_ : DialogId := .empty
  origin_date_ : Int := 0
  origin_ : MessageOrigin := .none
  content_ : Option Content := Option.none
  quote_ : FormattedText := {}
  quote_position_ : Int := 0
  is_quote_manual_ : Bool := false
deriving DecidableEq, Repr

/-- Modelled from the spec: the external collaborators of the component
(spec §1, §6), threaded as explicit parameters per spec §9. -/
structure Env where
  sessionCount : Int := 1
  quoteLengthMax : Int := 1024
  getMessageEntities : List Nat → List Nat := id
  fixFormattedText : String → List Nat → Except Unit (String × List Nat) := fun t e => .ok (t, e)
  cleanInputString : String → Option String := fun t => some t
  removeUnallowedQuoteEntities : List Nat → List Nat := id
  getMessageOrigin : Nat → Except Unit MessageOrigin := fun _ => .error ()
  getMessageContent : Nat → Content := fun p => { payload := p }
  isSupportedReplyContent : Content → Bool := fun _ => true
  getForwardedMessageInfo : DialogId → MessageId → ForwardedMessageInfo := fun _ _ => {}
  truncateFormattedText : FormattedText → Nat → FormattedText := fun q _ => q
  dupMessageContent : Content → Content := id
  compareMessageContents : Option Content → Option Content → Bool × Bool := fun a b => (decide (a ≠ b), false)
  getChatIdObject : DialogId → Int := fun _ => 0
  getMessageContentObject : Content → ClientContent := fun c => .other c.payload

/-- The value of static_cast to int32 applied to a size. -/
def int32OfNat (n : Nat) : Int :=
  if n % 2 ^ 32 < 2 ^ 31 then (n % 2 ^ 32 : Nat) else (n % 2 ^ 32 : Nat) - 2 ^ 32

/-- The value of static_cast to int64 applied to a size. -/
def int64OfNat (n : Nat) : Int :=
  if n % 2 ^ 64 < 2 ^ 63 then (n % 2 ^ 64 : Nat) else (n % 2 ^ 64 : Nat) - 2 ^ 64

/-- The value of static_cast to a 64-bit size_t applied to an option value. -/
def usizeOfInt (i : Int) : Nat := (i % 2 ^ 64).toNat

/-- The non-scheduled target-id logic of the Header Parser
(RepliedMessageInfo.cpp lines 70-91). -/
def parseIdsNonScheduled (env : Env) (reply_header : MessageReplyHeader) (dialog_id : DialogId)
    (message_id : MessageId) : MessageId × DialogId :=
  if reply_header.reply_to_msg_id_ ≠ 0 then
    let m0 := MessageId.server reply_header.reply_to_msg_id_
    let p1 : MessageId × DialogId :=
      match reply_header.reply_to_peer_id_ with
      | some p => if p.isValid then (m0, p) else (.empty, .empty)
      | Option.none => (m0, .empty)
    if ¬ p1.1.isValid then (.empty, .empty)
    else if ¬ message_id.isScheduled ∧ ¬ p1.2.isValid ∧
            ((message_id.rawValue < p1.1.rawValue ∧ ¬ has_qts_messages env.sessionCount dialog_id) ∨
             p1.1 = message_id) then
      (.empty, p1.2)
    else p1
  else (.empty, .empty)

/-- The scheduled target-id logic of the Header Parser
(RepliedMessageInfo.cpp lines 47-64). -/
def parseIdsScheduled (reply_header : MessageReplyHeader) (message_id : MessageId) (date : Int) :
    MessageId :=
  if message_id.isValidScheduled then
    let m0 := MessageId.mkScheduled reply_header.reply_to_msg_id_ date
    let m1 := if (reply_header.reply_to_peer_id_).isSome then MessageId.empty else m0
    if message_id = m1 then MessageId.empty else m1
  else MessageId.empty

/-- The origin part of the Header Parser (RepliedMessageInfo.cpp lines 92-105). -/
def parseOrigin (env : Env) (reply_header : MessageReplyHeader) : Int × MessageOrigin :=
  match reply_header.reply_from_ with
  | some rf =>
    if rf.date_ ≤ 0 then (0, .none)
    else
      match env.getMessageOrigin rf.payload with
      | .error _ => (0, .none)
      | .ok o => (rf.date_, o)
  | Option.none => (0, .none)

/-- The alternate-content part of the Header Parser
(RepliedMessageInfo.cpp lines 106-115). -/
def parseContent (env : Env) (reply_header : MessageReplyHeader) (origin : MessageOrigin) :
    Option Content :=
  if ¬ origin.isEmpty then
    match reply_header.reply_media_ with
    | some (.media p) =>
      let c := env.getMessageContent p
      if env.isSupportedReplyContent c then some c else Option.none
    | _ => Option.none
  else Option.none

/-- The Header Parser before quote extraction
(RepliedMessageInfo.cpp lines 44-116). -/
def parseCore (env : Env) (reply_header : MessageReplyHeader) (dialog_id : DialogId)
    (message_id : MessageId) (date : Int) : RepliedMessageInfo :=
  if reply_header.reply_to_scheduled_ then
    { message_id_ := parseIdsScheduled reply_header message_id date }
  else
    let ids := parseIdsNonScheduled env reply_header dialog_id message_id
    let op := parseOrigin env reply_header
    { message_id_ := ids.1, dialog_id_ := ids.2, origin_date_ := op.1, origin_ := op.2,
      content_ := parseContent env reply_header op.2 }

/-- The quote-extraction step of the Header Parser
(RepliedMessageInfo.cpp lines 117-131). -/
def applyQuote (env : Env) (reply_header : MessageReplyHeader) (r : RepliedMessageInfo) :
    RepliedMessageInfo :=
  if (¬ r.origin_.isEmpty ∨ r.message_id_ ≠ .empty) ∧ reply_header.quote_text_ ≠ "" then
    let entities := env.getMessageEntities reply_header.quote_entities_
    let te : String × List Nat :=
      match env.fixFormattedText reply_header.quote_text_ entities with
      | .ok te => te
      | .error _ =>
        let t :=
          match env.cleanInputString reply_header.quote_text_ with
          | some t => t
          | Option.none => ""
        (t, [])
    { r with quote_ := { text := te.1, entities := env.removeUnallowedQuoteEntities te.2 },
             quote_position_ := max 0 reply_header.quote_offset_,
             is_quote_manual_ := reply_header.quote_ }
  else r

/-- The Header Parser: a Reply Metadata instance built from a network reply
header (RepliedMessageInfo.cpp lines 44-132). -/
def RepliedMessageInfo.ofMessageReplyHeader (env : Env) (reply_header : MessageReplyHeader)
    (dialog_id : DialogId) (message_id : MessageId) (date : Int) : RepliedMessageInfo :=
  applyQuote env reply_header (parseCore env reply_header dialog_id message_id date)

/-- The Local Reply Builder: a Reply Metadata instance built from a local reply
intent (RepliedMessageInfo.cpp lines 134-174). -/
def RepliedMessageInfo.ofMessageInputReplyTo (env : Env) (input_reply_to : MessageInputReplyTo) :
    RepliedMessageInfo :=
  if ¬ input_reply_to.message_id_.isValid then {}
  else
    let r0 : RepliedMessageInfo := { message_id_ := input_reply_to.message_id_ }
    let r1 :=
      if input_reply_to.quote_.text ≠ "" then
        { r0 with quote_ := input_reply_to.quote_,
                  quote_position_ := input_reply_to.quote_position_,
                  is_quote_manual_ := true }
      else r0
    if input_reply_to.dialog_id_ ≠ .empty then
      let info := env.getForwardedMessageInfo input_reply_to.dialog_id_ input_reply_to.message_id_
      if info.origin_date_ = 0 ∨ info.origin_.isEmpty ∨ info.content_ = Option.none then {}
      else
        let r2 := { r1 with origin_date_ := info.origin_date_, origin_ := info.origin_,
                            content_ := info.content_ }
        let r3 :=
          match r2.content_ with
          | some c =>
            match c.text with
            | some t =>
              let r2a :=
                if ¬ r2.is_quote_manual_ then
                  let q0 : FormattedText :=
                    { text := t.text, entities := env.removeUnallowedQuoteEntities t.entities }
                  { r2 with quote_ := env.truncateFormattedText q0 (usizeOfInt env.quoteLengthMax) }
                else r2
              { r2a with content_ := some { c with text := some {} } }
            | Option.none => r2
          | Option.none => r2
        let fullId := r3.origin_.getMessageFullId
        if fullId.message_id.isValid then
          { r3 with message_id_ := fullId.message_id, dialog_id_ := fullId.dialog_id }
        else
          match input_reply_to.dialog_id_ with
          | .channel c => { r3 with dialog_id_ := .channel c }
          | _ => { r3 with message_id_ := .empty }
    else r1

/-- clone (RepliedMessageInfo.cpp lines 176-190). -/
def RepliedMessageInfo.clone (env : Env) (x : RepliedMessageInfo) : RepliedMessageInfo :=
  { message_id_ := x.message_id_, dialog_id_ := x.dialog_id_, origin_date_ := x.origin_date_,
    origin_ := x.origin_, content_ := x.content_.map env.dupMessageContent, quote_ := x.quote_,
    quote_position_ := x.quote_position_, is_quote_manual_ := x.is_quote_manual_ }

/-- The equality operator over Reply Metadata instances
(RepliedMessageInfo.cpp lines 399-412). -/
def repliedMessageInfoEq (env : Env) (lhs rhs : RepliedMessageInfo) : Bool :=
  if lhs.message_id_ = rhs.message_id_ ∧ lhs.dialog_id_ = rhs.dialog_id_ ∧
     lhs.origin_date_ = rhs.origin_date_ ∧ lhs.origin_ = rhs.origin_ ∧ lhs.quote_ = rhs.quote_ ∧
     lhs.quote_position_ = rhs.quote_position_ ∧ lhs.is_quote_manual_ = rhs.is_quote_manual_ then
    let flags := env.compareMessageContents lhs.content_ rhs.content_
    !(flags.2 || flags.1)
  else false

/-- The Change Oracle need_reply_changed_warning
(RepliedMessageInfo.cpp lines 196-268). -/
def need_reply_changed_warning (env : Env) (old_info new_info : RepliedMessageInfo)
    (old_top_thread_message_id : MessageId) (is_yet_unsent : Bool)
    (is_reply_to_deleted_message : RepliedMessageInfo → Bool) : Bool :=
  if old_info.origin_date_ ≠ new_info.origin_date_ ∧ old_info.origin_date_ ≠ 0 ∧
     new_info.origin_date_ ≠ 0 then true
  else if old_info.origin_ ≠ new_info.origin_ ∧ ¬ old_info.origin_.hasSenderSignature ∧
          ¬ new_info.origin_.hasSenderSignature ∧ ¬ old_info.origin_.isEmpty ∧
          ¬ new_info.origin_.isEmpty then true
  else if old_info.quote_position_ ≠ new_info.quote_position_ ∧
          max old_info.quote_position_ new_info.quote_position_ <
            int32OfNat (min (textSize old_info.quote_.text) (textSize new_info.quote_.text)) then
    true
  else if old_info.is_quote_manual_ ≠ new_info.is_quote_manual_ then true
  else if old_info.quote_ ≠ new_info.quote_ ∧
          (old_info.is_quote_manual_ ∨
           int64OfNat (max (textSize old_info.quote_.text) (textSize new_info.quote_.text)) <
             env.quoteLengthMax - 70) then true
  else if old_info.dialog_id_ ≠ new_info.dialog_id_ ∧ old_info.dialog_id_ ≠ .empty ∧
          new_info.dialog_id_ ≠ .empty then true
  else if old_info.message_id_ = new_info.message_id_ ∧
          old_info.dialog_id_ = new_info.dialog_id_ then
    if old_info.message_id_ ≠ .empty then
      if old_info.origin_date_ ≠ new_info.origin_date_ then true
      else if old_info.origin_ ≠ new_info.origin_ ∧ ¬ old_info.origin_.hasSenderSignature ∧
              ¬ new_info.origin_.hasSenderSignature then true
      else false
    else false
  else if is_yet_unsent ∧ is_reply_to_deleted_message old_info ∧
          new_info.message_id_ = .empty then false
  else if is_yet_unsent ∧ is_reply_to_deleted_message new_info ∧
          old_info.message_id_ = .empty then false
  else if old_info.message_id_.isValidScheduled ∧ old_info.message_id_.isScheduledServer ∧
          new_info.message_id_.isValidScheduled ∧ new_info.message_id_.isScheduledServer ∧
          old_info.message_id_.getScheduledServerMessageId =
            new_info.message_id_.getScheduledServerMessageId then false
  else if is_yet_unsent ∧ old_top_thread_message_id = new_info.message_id_ ∧
          new_info.dialog_id_ = .empty then false
  else true

/-- The Change Oracle with its quote-position rule (rule 3) removed; used to
state that when that rule's guard fails, evaluation continues with the later
rules unchanged. -/
def need_reply_changed_warning_without_rule3 (env : Env) (old_info new_info : RepliedMessageInfo)
    (old_top_thread_message_id : MessageId) (is_yet_unsent : Bool)
    (is_reply_to_deleted_message : RepliedMessageInfo → Bool) : Bool :=
  if old_info.origin_date_ ≠ new_info.origin_date_ ∧ old_info.origin_date_ ≠ 0 ∧
     new_info.origin_date_ ≠ 0 then true
  else if old_info.origin_ ≠ new_info.origin_ ∧ ¬ old_info.origin_.hasSenderSignature ∧
          ¬ new_info.origin_.hasSenderSignature ∧ ¬ old_info.origin_.isEmpty ∧
          ¬ new_info.origin_.isEmpty then true
  else if old_info.is_quote_manual_ ≠ new_info.is_quote_manual_ then true
  else if old_info.quote_ ≠ new_info.quote_ ∧
          (old_info.is_quote_manual_ ∨
           int64OfNat (max (textSize old_info.quote_.text) (textSize new_info.quote_.text)) <
             env.quoteLengthMax - 70) then true
  else if old_info.dialog_id_ ≠ new_info.dialog_id_ ∧ old_info.dialog_id_ ≠ .empty ∧
          new_info.dialog_id_ ≠ .empty then true
  else if old_info.message_id_ = new_info.message_id_ ∧
          old_info.dialog_id_ = new_info.dialog_id_ then
    if old_info.message_id_ ≠ .empty then
      if old_info.origin_date_ ≠ new_info.origin_date_ then true
      else if old_info.origin_ ≠ new_info.origin_ ∧ ¬ old_info.origin_.hasSenderSignature ∧
              ¬ new_info.origin_.hasSenderSignature then true
      else false
    else false
  else if is_yet_unsent ∧ is_reply_to_deleted_message old_info ∧
          new_info.message_id_ = .empty then false
  else if is_yet_unsent ∧ is_reply_to_deleted_message new_info ∧
          old_info.message_id_ = .empty then false
  else if old_info.message_id_.isValidScheduled ∧ old_info.message_id_.isScheduledServer ∧
          new_info.message_id_.isValidScheduled ∧ new_info.message_id_.isScheduledServer ∧
          old_info.message_id_.getScheduledServerMessageId =
            new_info.message_id_.getScheduledServerMessageId then false
  else if is_yet_unsent ∧ old_top_thread_message_id = new_info.message_id_ ∧
          new_info.dialog_id_ = .empty then false
  else true

/-- The client projection object (spec §6). -/
structure MessageReplyToMessageObject where
  chat_id : Int
  message_id : Int
  quote : Option (FormattedText × Int × Bool)
  origin : Option MessageOrigin
  origin_date : Int
  content : Option ClientContent
deriving DecidableEq, Repr

/-- get_message_reply_to_message_object (RepliedMessageInfo.cpp lines 311-357). -/
def RepliedMessageInfo.get_message_reply_to_message_object (env : Env) (x : RepliedMessageInfo)
    (dialog_id : DialogId) : MessageReplyToMessageObject :=
  let d := if x.dialog_id_.isValid then x.dialog_id_ else dialog_id
  { chat_id := if x.message_id_ = .empty then 0 else env.getChatIdObject d
    message_id := x.message_id_.rawValue
    quote :=
      if x.quote_.text ≠ "" then some (x.quote_, x.quote_position_, x.is_quote_manual_)
      else Option.none
    origin := if ¬ x.origin_.isEmpty then some x.origin_ else Option.none
    origin_date := x.origin_date_
    content :=
      match x.content_ with
      | some c =>
        match env.getMessageContentObject c with
        | .unsupported => Option.none
        | .text wp lpo =>
          if wp = Option.none ∧ lpo = Option.none then Option.none else some (.text wp lpo)
        | .other k => some (.other k)
      | Option.none => Option.none }

theorem applyQuote_message_id_ (env : Env) (reply_header : MessageReplyHeader)
    (r : RepliedMessageInfo) : (applyQuote env reply_header r).message_id_ = r.message_id_ := by
  unfold applyQuote
  split <;> rfl

theorem applyQuote_dialog_id_ (env : Env) (reply_header : MessageReplyHeader)
    (r : RepliedMessageInfo) : (applyQuote env reply_header r).dialog_id_ = r.dialog_id_ := by
  unfold applyQuote
  split <;> rfl

theorem applyQuote_origin_ (env : Env) (reply_header : MessageReplyHeader)
    (r : RepliedMessageInfo) : (applyQuote env reply_header r).origin_ = r.origin_ := by
  unfold applyQuote
  split <;> rfl

theorem parseCore_quote_ (env : Env) (reply_header : MessageReplyHeader) (dialog_id : DialogId)
    (message_id : MessageId) (date : Int) :
    (parseCore env reply_header dialog_id message_id date).quote_ = {} := by
  unfold parseCore
  split <;> rfl

theorem MessageId.isValid_ne_empty {m : MessageId} (h : m.isValid = true) : m ≠ .empty := by
  cases m <;> simp [MessageId.isValid] at h ⊢

/-- The old snapshot of spec scenario C: target message id 5, origin date 0. -/
def oldC1 : RepliedMessageInfo := { message_id_ := .server 5 }

/-- The new snapshot of spec scenario C: target message id 5, origin date 100. -/
def newC1 : RepliedMessageInfo := { message_id_ := .server 5, origin_date_ := 100 }

/-- C1 counterexample: on scenario C the oracle returns true, not false as the
claim states — in the unchanged-target branch the origin-date re-check does not
require both dates to be non-zero. -/
theorem claim_C1_counterexample :
    need_reply_changed_warning {} oldC1 newC1 .empty false (fun _ => false) = true := by
  decide

/-- C1 (amended): for old = (target_message_id 5, origin_date 0) and
new = (target_message_id 5, origin_date 100) with equal empty target chat ids
and all other fields equal, the oracle returns true for every context: in the
unchanged-target branch with a non-empty message id, any origin_date
difference — including a difference from 0 — reports a change, unlike rule 1
which requires both dates non-zero. -/
theorem claim_C1_amended (env : Env) (old_top_thread_message_id : MessageId)
    (is_yet_unsent : Bool) (is_reply_to_deleted_message : RepliedMessageInfo → Bool) :
    need_reply_changed_warning env oldC1 newC1 old_top_thread_message_id is_yet_unsent
      is_reply_to_deleted_message = true := by
  rfl

/-- The old snapshot for the C2 counterexample: quote text of five bytes at
position 1. -/
def oldC2 : RepliedMessageInfo :=
  { message_id_ := .server 5, quote_ := { text := "aaaaa" }, quote_position_ := 1 }

/-- The new snapshot for the C2 counterexample: the same quote text at
position 10. -/
def newC2 : RepliedMessageInfo :=
  { message_id_ := .server 5, quote_ := { text := "aaaaa" }, quote_position_ := 10 }

/-- C2 counterexample: the quote positions differ and the smaller of the two
(1) is within the bounds of both quote texts (both of size 5), so the claim
predicts that rule 3 fires and the oracle returns true; the oracle returns
false, because the code compares the larger position against the smaller
length. -/
theorem claim_C2_counterexample :
    oldC2.quote_position_ ≠ newC2.quote_position_ ∧
    min oldC2.quote_position_ newC2.quote_position_ < int32OfNat (textSize oldC2.quote_.text) ∧
    min oldC2.quote_position_ newC2.quote_position_ < int32OfNat (textSize newC2.quote_.text) ∧
    need_reply_changed_warning {} oldC2 newC2 .empty false (fun _ => false) = false := by
  decide

/-- C2 (amended): for every pair of snapshots whose quote_position values
differ, rule 3 reports a change exactly when the larger of the two positions
is below the smaller of the two quotes' text lengths (cast to int32): when
that condition holds the oracle returns true, and when it fails rule 3 does
not fire and evaluation continues with the later rules unchanged. -/
theorem claim_C2_amended (env : Env) (old_info new_info : RepliedMessageInfo)
    (old_top_thread_message_id : MessageId) (is_yet_unsent : Bool)
    (is_reply_to_deleted_message : RepliedMessageInfo → Bool) :
    (old_info.quote_position_ ≠ new_info.quote_position_ ∧
       max old_info.quote_position_ new_info.quote_position_ <
         int32OfNat (min (textSize old_info.quote_.text) (textSize new_info.quote_.text)) →
       need_reply_changed_warning env old_info new_info old_top_thread_message_id is_yet_unsent
         is_reply_to_deleted_message = true) ∧
    (¬ max old_info.quote_position_ new_info.quote_position_ <
         int32OfNat (min (textSize old_info.quote_.text) (textSize new_info.quote_.text)) →
       need_reply_changed_warning env old_info new_info old_top_thread_message_id is_yet_unsent
         is_reply_to_deleted_message =
         need_reply_changed_warning_without_rule3 env old_info new_info
           old_top_thread_message_id is_yet_unsent is_reply_to_deleted_message) := by
  constructor
  · intro hc
    unfold need_reply_changed_warning
    split
    · rfl
    · split
      · rfl
      · rfl
  · intro hc
    have h3 : ¬ (old_info.quote_position_ ≠ new_info.quote_position_ ∧
        max old_info.quote_position_ new_info.quote_position_ <
          int32OfNat (min (textSize old_info.quote_.text) (textSize new_info.quote_.text))) :=
      fun hand => hc hand.2
    unfold need_reply_changed_warning need_reply_changed_warning_without_rule3
    rw [if_neg h3]

/-- C2 witness: the amended theorem applied at two concrete pairs — one where
the guard holds and rule 3 fires, and one where it fails and the oracle
coincides with the oracle without rule 3. -/
theorem claim_C2_witness :
    need_reply_changed_warning {}
        { message_id_ := .server 5, quote_ := { text := "aaaaa" }, quote_position_ := 1 }
        { message_id_ := .server 5, quote_ := { text := "aaaaa" }, quote_position_ := 2 }
        .empty false (fun _ => false) = true ∧
    need_reply_changed_warning {} {} {} .empty false (fun _ => false) =
      need_reply_changed_warning_without_rule3 {} {} {} .empty false (fun _ => false) :=
  ⟨(claim_C2_amended {}
      { message_id_ := .server 5, quote_ := { text := "aaaaa" }, quote_position_ := 1 }
      { message_id_ := .server 5, quote_ := { text := "aaaaa" }, quote_position_ := 2 }
      .empty false (fun _ => false)).1 (by decide),
   (claim_C2_amended {} {} {} .empty false (fun _ => false)).2 (by decide)⟩

/-- C7: the oracle is reflexively "not changed": for every instance a and every
context, need_reply_changed_warning(a, a, ...) returns false through the
unchanged-target branch. -/
theorem claim_C7 (env : Env) (a : RepliedMessageInfo) (old_top_thread_message_id : MessageId)
    (is_yet_unsent : Bool) (is_reply_to_deleted_message : RepliedMessageInfo → Bool) :
    need_reply_changed_warning env a a old_top_thread_message_id is_yet_unsent
      is_reply_to_deleted_message = false := by
  simp [need_reply_changed_warning]

theorem parseIdsScheduled_peer (reply_header : MessageReplyHeader) (message_id : MessageId)
    (date : Int) (hp : reply_header.reply_to_peer_id_.isSome = true) :
    parseIdsScheduled reply_header message_id date = .empty := by
  unfold parseIdsScheduled
  split
  · simp [hp]
  · rfl

/-- C4: for every network reply header in which reply_to_scheduled is true and
reply_to_peer_id is set, the Header Parser produces an instance with both
target_message_id and target_chat_id empty. -/
theorem claim_C4 (env : Env) (reply_header : MessageReplyHeader) (dialog_id : DialogId)
    (message_id : MessageId) (date : Int) (hs : reply_header.reply_to_scheduled_ = true)
    (hp : reply_header.reply_to_peer_id_.isSome = true) :
    (RepliedMessageInfo.ofMessageReplyHeader env reply_header dialog_id message_id
        date).message_id_ = .empty ∧
    (RepliedMessageInfo.ofMessageReplyHeader env reply_header dialog_id message_id
        date).dialog_id_ = .empty := by
  unfold RepliedMessageInfo.ofMessageReplyHeader
  refine ⟨?_, ?_⟩
  · rw [applyQuote_message_id_]
    unfold parseCore
    rw [if_pos hs]
    exact parseIdsScheduled_peer reply_header message_id date hp
  · rw [applyQuote_dialog_id_]
    unfold parseCore
    rw [if_pos hs]

/-- C4 witness: the theorem applied to a concrete scheduled header that names a
peer, for a host message with a valid scheduled id. -/
theorem claim_C4_witness :
    (RepliedMessageInfo.ofMessageReplyHeader {}
        { reply_to_scheduled_ := true, reply_to_msg_id_ := 3,
          reply_to_peer_id_ := some (.user 2) }
        (.user 1) (.scheduledServer 9 50) 0).message_id_ = .empty ∧
    (RepliedMessageInfo.ofMessageReplyHeader {}
        { reply_to_scheduled_ := true, reply_to_msg_id_ := 3,
          reply_to_peer_id_ := some (.user 2) }
        (.user 1) (.scheduledServer 9 50) 0).dialog_id_ = .empty :=
  claim_C4 {}
    { reply_to_scheduled_ := true, reply_to_msg_id_ := 3, reply_to_peer_id_ := some (.user 2) }
    (.user 1) (.scheduledServer 9 50) 0 rfl rfl

/-- C5: the scenario B header (non-scheduled, reply_to_msg_id 42, no peer, no
reply_from, quote text "hello" at offset 3) parsed for host message id 10 in a
chat without gap-prone delivery yields an empty target_message_id and an empty
quote: the greater-than-host heuristic scrubs the target before the
quote-extraction gate, and with no origin the quote is never extracted. -/
theorem claim_C5 (env : Env) (dialog_id : DialogId) (date : Int)
    (hq : has_qts_messages env.sessionCount dialog_id = false) :
    (RepliedMessageInfo.ofMessageReplyHeader env
        { reply_to_msg_id_ := 42, quote_text_ := "hello", quote_offset_ := 3 }
        dialog_id (.server 10) date).message_id_ = .empty ∧
    (RepliedMessageInfo.ofMessageReplyHeader env
        { reply_to_msg_id_ := 42, quote_text_ := "hello", quote_offset_ := 3 }
        dialog_id (.server 10) date).quote_.text = "" := by
  have hcore : parseCore env
      { reply_to_msg_id_ := 42, quote_text_ := "hello", quote_offset_ := 3 }
      dialog_id (.server 10) date = {} := by
    unfold parseCore parseIdsNonScheduled parseOrigin parseContent
    simp [hq, MessageId.isValid, MessageId.isScheduled, MessageId.rawValue,
      MessageOrigin.isEmpty, DialogId.isValid]
  have hall : RepliedMessageInfo.ofMessageReplyHeader env
      { reply_to_msg_id_ := 42, quote_text_ := "hello", quote_offset_ := 3 }
      dialog_id (.server 10) date = {} := by
    unfold RepliedMessageInfo.ofMessageReplyHeader
    rw [hcore]
    unfold applyQuote
    rw [if_neg]
    intro hand
    rcases hand.1 with h1 | h2
    · exact h1 rfl
    · exact h2 rfl
  exact ⟨by rw [hall], by rw [hall]⟩

/-- C5 witness: the theorem applied to a concrete private chat with a single
active session, where delivery is not gap-prone. -/
theorem claim_C5_witness :
    (RepliedMessageInfo.ofMessageReplyHeader {}
        { reply_to_msg_id_ := 42, quote_text_ := "hello", quote_offset_ := 3 }
        (.user 1) (.server 10) 777).message_id_ = .empty ∧
    (RepliedMessageInfo.ofMessageReplyHeader {}
        { reply_to_msg_id_ := 42, quote_text_ := "hello", quote_offset_ := 3 }
        (.user 1) (.server 10) 777).quote_.text = "" :=
  claim_C5 {} (.user 1) 777 (by decide)

/-- C3: for every local reply intent with a valid message id and a non-empty
target chat id, if the forwarded-message lookup yields origin_date 0, an empty
origin, or no content, the Local Reply Builder produces the fully-empty
instance: the copied target id and any adopted manual quote are discarded. -/
theorem claim_C3 (env : Env) (input_reply_to : MessageInputReplyTo)
    (hm : input_reply_to.message_id_.isValid = true)
    (hd : input_reply_to.dialog_id_ ≠ .empty)
    (hfail :
      (env.getForwardedMessageInfo input_reply_to.dialog_id_
          input_reply_to.message_id_).origin_date_ = 0 ∨
      (env.getForwardedMessageInfo input_reply_to.dialog_id_
          input_reply_to.message_id_).origin_.isEmpty = true ∨
      (env.getForwardedMessageInfo input_reply_to.dialog_id_
          input_reply_to.message_id_).content_ = Option.none) :
    RepliedMessageInfo.ofMessageInputReplyTo env input_reply_to = {} := by
  simp only [RepliedMessageInfo.ofMessageInputReplyTo]
  rw [if_neg (not_not_intro hm), if_pos hd, if_pos hfail]

/-- C3 witness: the theorem applied to a concrete cross-chat intent under the
default environment, whose forwarded-message lookup yields origin date 0. -/
theorem claim_C3_witness :
    RepliedMessageInfo.ofMessageInputReplyTo {}
      { message_id_ := .server 3, dialog_id_ := .user 1 } = {} :=
  claim_C3 {} { message_id_ := .server 3, dialog_id_ := .user 1 } rfl
    (by decide) (Or.inl rfl)

/-- C6: every instance produced by the Header Parser or the Local Reply
Builder satisfies: if the quote is non-empty then the origin is non-empty or
the target_message_id is set (the Header Parser extracts a quote only under
that disjunction). -/
theorem claim_C6 :
    (∀ (env : Env) (reply_header : MessageReplyHeader) (dialog_id : DialogId)
        (message_id : MessageId) (date : Int),
      (RepliedMessageInfo.ofMessageReplyHeader env reply_header dialog_id message_id
          date).quote_.text ≠ "" →
      (RepliedMessageInfo.ofMessageReplyHeader env reply_header dialog_id message_id
          date).origin_.isEmpty = false ∨
      (RepliedMessageInfo.ofMessageReplyHeader env reply_header dialog_id message_id
          date).message_id_ ≠ .empty) ∧
    (∀ (env : Env) (input_reply_to : MessageInputReplyTo),
      (RepliedMessageInfo.ofMessageInputReplyTo env input_reply_to).quote_.text ≠ "" →
      (RepliedMessageInfo.ofMessageInputReplyTo env input_reply_to).origin_.isEmpty = false ∨
      (RepliedMessageInfo.ofMessageInputReplyTo env input_reply_to).message_id_ ≠ .empty) := by
  constructor
  · intro env reply_header dialog_id message_id date hq
    by_cases hg : (¬ (parseCore env reply_header dialog_id message_id date).origin_.isEmpty ∨
        (parseCore env reply_header dialog_id message_id date).message_id_ ≠ .empty) ∧
        reply_header.quote_text_ ≠ ""
    · have hmid := applyQuote_message_id_ env reply_header
        (parseCore env reply_header dialog_id message_id date)
      have horig := applyQuote_origin_ env reply_header
        (parseCore env reply_header dialog_id message_id date)
      unfold RepliedMessageInfo.ofMessageReplyHeader
      rw [horig, hmid]
      rcases hg.1 with h1 | h2
      · exact Or.inl (by simpa using h1)
      · exact Or.inr h2
    · have hres : RepliedMessageInfo.ofMessageReplyHeader env reply_header dialog_id message_id
          date = parseCore env reply_header dialog_id message_id date := by
        unfold RepliedMessageInfo.ofMessageReplyHeader applyQuote
        rw [if_neg hg]
      rw [hres, parseCore_quote_] at hq
      exact absurd rfl hq
  · intro env input_reply_to hq
    by_cases hv : input_reply_to.message_id_.isValid = true
    · by_cases hd : input_reply_to.dialog_id_ ≠ .empty
      · by_cases hf :
            (env.getForwardedMessageInfo input_reply_to.dialog_id_
                input_reply_to.message_id_).origin_date_ = 0 ∨
            (env.getForwardedMessageInfo input_reply_to.dialog_id_
                input_reply_to.message_id_).origin_.isEmpty = true ∨
            (env.getForwardedMessageInfo input_reply_to.dialog_id_
                input_reply_to.message_id_).content_ = Option.none
        · have hres : RepliedMessageInfo.ofMessageInputReplyTo env input_reply_to = {} := by
            simp only [RepliedMessageInfo.ofMessageInputReplyTo]
            rw [if_neg (not_not_intro hv), if_pos hd, if_pos hf]
          rw [hres] at hq
          exact absurd rfl hq
        · left
          have horig : (RepliedMessageInfo.ofMessageInputReplyTo env input_reply_to).origin_ =
              (env.getForwardedMessageInfo input_reply_to.dialog_id_
                  input_reply_to.message_id_).origin_ := by
            simp only [RepliedMessageInfo.ofMessageInputReplyTo]
            rw [if_neg (not_not_intro hv), if_pos hd, if_neg hf]
            repeat' split
            all_goals rfl
          rw [horig]
          simp only [not_or] at hf
          simpa using hf.2.1
      · right
        have hmid : (RepliedMessageInfo.ofMessageInputReplyTo env input_reply_to).message_id_ =
            input_reply_to.message_id_ := by
          simp only [RepliedMessageInfo.ofMessageInputReplyTo]
          rw [if_neg (not_not_intro hv), if_neg hd]
          split <;> rfl
        rw [hmid]
        exact MessageId.isValid_ne_empty hv
    · have hres : RepliedMessageInfo.ofMessageInputReplyTo env input_reply_to = {} := by
        unfold RepliedMessageInfo.ofMessageInputReplyTo
        rw [if_pos hv]
      rw [hres] at hq
      exact absurd rfl hq

/-- C6 witness: the invariant instantiated on a same-chat local reply intent
with a manual quote, where the target message id survives. -/
theorem claim_C6_witness :
    (RepliedMessageInfo.ofMessageInputReplyTo {}
        { message_id_ := .server 3, quote_ := { text := "q" } }).origin_.isEmpty = false ∨
    (RepliedMessageInfo.ofMessageInputReplyTo {}
        { message_id_ := .server 3, quote_ := { text := "q" } }).message_id_ ≠ .empty :=
  claim_C6.2 {} { message_id_ := .server 3, quote_ := { text := "q" } } (by decide)

theorem parseCore_nonsched_fields (env : Env) (reply_header : MessageReplyHeader)
    (dialog_id : DialogId) (message_id : MessageId) (date : Int)
    (hs : ¬ reply_header.reply_to_scheduled_ = true) :
    (parseCore env reply_header dialog_id message_id date).message_id_ =
      (parseIdsNonScheduled env reply_header dialog_id message_id).1 ∧
    (parseCore env reply_header dialog_id message_id date).dialog_id_ =
      (parseIdsNonScheduled env reply_header dialog_id message_id).2 := by
  unfold parseCore
  rw [if_neg hs]
  exact ⟨rfl, rfl⟩

theorem parseCore_sched_dialog (env : Env) (reply_header : MessageReplyHeader)
    (dialog_id : DialogId) (message_id : MessageId) (date : Int)
    (hs : reply_header.reply_to_scheduled_ = true) :
    (parseCore env reply_header dialog_id message_id date).dialog_id_ = .empty := by
  unfold parseCore
  rw [if_pos hs]

theorem parseIdsNonScheduled_spec (env : Env) (reply_header : MessageReplyHeader)
    (dialog_id : DialogId) (message_id : MessageId) :
    (parseIdsNonScheduled env reply_header dialog_id message_id).2 = .empty ∨
    (parseIdsNonScheduled env reply_header dialog_id message_id).1.isValid = true := by
  unfold parseIdsNonScheduled
  split
  · cases hp : reply_header.reply_to_peer_id_ with
    | none =>
      simp only [hp]
      split
      · exact Or.inl rfl
      · split
        · exact Or.inl rfl
        · exact Or.inl rfl
    | some p =>
      simp only [hp]
      by_cases hpv : p.isValid = true
      · simp only [hpv, if_pos]
        split
        · exact Or.inl rfl
        · split
          · rename_i hcond
            exact absurd trivial hcond.2.1
          · rename_i hnv _
            exact Or.inr (not_not.mp hnv)
      · have hpv' : p.isValid = false := by simpa using hpv
        simp [hpv', MessageId.isValid]
  · exact Or.inl rfl

/-- C10: every instance produced by the Header Parser satisfies: if
target_chat_id is non-empty then target_message_id is a valid id — the header
constructor never leaves a chat id set with an empty or invalid message id. -/
theorem claim_C10 (env : Env) (reply_header : MessageReplyHeader) (dialog_id : DialogId)
    (message_id : MessageId) (date : Int)
    (hd : (RepliedMessageInfo.ofMessageReplyHeader env reply_header dialog_id message_id
        date).dialog_id_ ≠ .empty) :
    (RepliedMessageInfo.ofMessageReplyHeader env reply_header dialog_id message_id
        date).message_id_.isValid = true := by
  unfold RepliedMessageInfo.ofMessageReplyHeader at hd ⊢
  rw [applyQuote_dialog_id_] at hd
  rw [applyQuote_message_id_]
  by_cases hs : reply_header.reply_to_scheduled_ = true
  · exact absurd (parseCore_sched_dialog env reply_header dialog_id message_id date hs) hd
  · obtain ⟨h1, h2⟩ := parseCore_nonsched_fields env reply_header dialog_id message_id date hs
    rw [h2] at hd
    rw [h1]
    rcases parseIdsNonScheduled_spec env reply_header dialog_id message_id with h | h
    · exact absurd h hd
    · exact h

/-- C10 witness: the invariant instantiated on a header with a valid peer and
message id, where the parser keeps both. -/
theorem claim_C10_witness :
    (RepliedMessageInfo.ofMessageReplyHeader {}
        { reply_to_msg_id_ := 7, reply_to_peer_id_ := some (.channel 5) }
        (.user 1) (.server 100) 0).message_id_.isValid = true :=
  claim_C10 {} { reply_to_msg_id_ := 7, reply_to_peer_id_ := some (.channel 5) }
    (.user 1) (.server 100) 0 (by decide)

/-- C8: for every instance x, clone(x) equals x under the type's equality,
provided the external content-duplication primitive produces content that the
external content-comparison primitive reports as unchanged. -/
theorem claim_C8 (env : Env)
    (hdup : ∀ c, env.compareMessageContents (some (env.dupMessageContent c)) (some c) =
      (false, false))
    (hnone : env.compareMessageContents Option.none Option.none = (false, false))
    (x : RepliedMessageInfo) :
    repliedMessageInfoEq env (RepliedMessageInfo.clone env x) x = true := by
  unfold repliedMessageInfoEq RepliedMessageInfo.clone
  rw [if_pos ⟨rfl, rfl, rfl, rfl, rfl, rfl, rfl⟩]
  cases hx : x.content_ with
  | none => simp [hx, hnone]
  | some c => simp [hx, hdup c]

/-- C8 witness: the theorem applied to the default instance under an
environment whose comparison primitive reports every pair unchanged. -/
theorem claim_C8_witness :
    repliedMessageInfoEq { compareMessageContents := fun _ _ => (false, false) }
      (RepliedMessageInfo.clone { compareMessageContents := fun _ _ => (false, false) } {})
      {} = true :=
  claim_C8 { compareMessageContents := fun _ _ => (false, false) } (fun _ => rfl) rfl {}

/-- C9: the client projection forces the chat id to 0 whenever
target_message_id is empty, emits the quote object iff the quote text is
non-empty, emits the origin iff the origin is non-empty, and suppresses the
content to null when it projects to an unsupported placeholder or to a bare
text message with neither a web page nor link-preview options. -/
theorem claim_C9 (env : Env) (x : RepliedMessageInfo) (dialog_id : DialogId) :
    (x.message_id_ = .empty →
      (RepliedMessageInfo.get_message_reply_to_message_object env x dialog_id).chat_id = 0) ∧
    ((RepliedMessageInfo.get_message_reply_to_message_object env x dialog_id).quote.isSome =
        true ↔ x.quote_.text ≠ "") ∧
    ((RepliedMessageInfo.get_message_reply_to_message_object env x dialog_id).origin.isSome =
        true ↔ x.origin_.isEmpty = false) ∧
    (∀ c, x.content_ = some c →
      (env.getMessageContentObject c = .unsupported ∨
       env.getMessageContentObject c = .text Option.none Option.none) →
      (RepliedMessageInfo.get_message_reply_to_message_object env x dialog_id).content =
        Option.none) := by
  refine ⟨?_, ?_, ?_, ?_⟩
  · intro hm
    unfold RepliedMessageInfo.get_message_reply_to_message_object
    simp [hm]
  · unfold RepliedMessageInfo.get_message_reply_to_message_object
    by_cases hq : x.quote_.text = "" <;> simp [hq]
  · unfold RepliedMessageInfo.get_message_reply_to_message_object
    cases hb : x.origin_.isEmpty <;> simp [hb]
  · intro c hc hdeg
    unfold RepliedMessageInfo.get_message_reply_to_message_object
    rcases hdeg with h | h <;> simp [hc, h]

/-- C9 witness: the projection rules instantiated on a concrete instance with
an empty target id, a non-empty quote and origin, and a content that projects
to the unsupported placeholder. -/
theorem claim_C9_witness :
    ((RepliedMessageInfo.get_message_reply_to_message_object
        { getMessageContentObject := fun _ => .unsupported }
        { quote_ := { text := "q" }, origin_ := .user 1, content_ := some {} }
        (.user 2)).chat_id = 0) ∧
    ((RepliedMessageInfo.get_message_reply_to_message_object
        { getMessageContentObject := fun _ => .unsupported }
        { quote_ := { text := "q" }, origin_ := .user 1, content_ := some {} }
        (.user 2)).quote.isSome = true) ∧
    ((RepliedMessageInfo.get_message_reply_to_message_object
        { getMessageContentObject := fun _ => .unsupported }
        { quote_ := { text := "q" }, origin_ := .user 1, content_ := some {} }
        (.user 2)).origin.isSome = true) ∧
    ((RepliedMessageInfo.get_message_reply_to_message_object
        { getMessageContentObject := fun _ => .unsupported }
        { quote_ := { text := "q" }, origin_ := .user 1, content_ := some {} }
        (.user 2)).content = Option.none) :=
  ⟨(claim_C9 { getMessageContentObject := fun _ => .unsupported }
      { quote_ := { text := "q" }, origin_ := .user 1, content_ := some {} } (.user 2)).1 rfl,
   (claim_C9 { getMessageContentObject := fun _ => .unsupported }
      { quote_ := { text := "q" }, origin_ := .user 1, content_ := some {} } (.user 2)).2.1.mpr
     (by decide),
   (claim_C9 { getMessageContentObject := fun _ => .unsupported }
      { quote_ := { text := "q" }, origin_ := .user 1, content_ := some {} } (.user 2)).2.2.1.mpr
     rfl,
   (claim_C9 { getMessageContentObject := fun _ => .unsupported }
      { quote_ := { text := "q" }, origin_ := .user 1, content_ := some {} }
      (.user 2)).2.2.2 {} rfl (Or.inl rfl)⟩

end TdReply
